import Mathlib

/-!
Verification of the Detective Joe v1.5 reconnaissance core: a shallow
embedding in Lean 4 of the artifact store (src/intelligence.py), the
plugin execution contract (src/plugins/base.py), the async worker pool
(src/async_worker.py), and the chaining and summary logic
(src/detectivejoe.py, src/plugins/discovery.py), together with theorems
settling the behavioural claims about those components.

Modelling conventions:
- Python `dict` is modelled as `List (String × α)` with insertion-order
  semantics: assignment replaces an existing key in place, otherwise
  appends (`dictInsert`).  Python `set` of strings is modelled as a
  duplicate-free `List String` built by `setAdd`; `list(set(l))` is
  modelled by first-occurrence deduplication (`pySetList`) — Python's
  set iteration order is unspecified, and only the membership content of
  these lists is ever relied on below.
- Python floats (confidences, durations) are modelled as `ℚ`.
- Fallible Python code is modelled with `Except`/`Option`; an uncaught
  exception becomes an `.error` carrying `str(e)`.
-/

set_option maxRecDepth 40000

namespace DJ

/-! ## Python container primitives -/

/-- Python `d[k] = v` on an insertion-ordered dict: replace in place if the
key exists, otherwise append. -/
def dictInsert {α : Type} (m : List (String × α)) (k : String) (v : α) :
    List (String × α) :=
  match m with
  | [] => [(k, v)]
  | (k₁, v₁) :: rest =>
      if k₁ = k then (k, v) :: rest else (k₁, v₁) :: dictInsert rest k v

/-- Python `d.get(k)` / `d[k]`: first (unique) binding of the key. -/
def dictLookup {α : Type} (m : List (String × α)) (k : String) : Option α :=
  match m with
  | [] => none
  | (k₁, v₁) :: rest => if k₁ = k then some v₁ else dictLookup rest k

/-- Python `d.update(other)`: each binding of `other` is assigned into `d`,
later keys winning. -/
def dictUpdate {α : Type} (m other : List (String × α)) : List (String × α) :=
  other.foldl (fun acc p => dictInsert acc p.1 p.2) m

/-- Python `s.add(x)` on a set modelled as a duplicate-free list. -/
def setAdd (s : List String) (x : String) : List String :=
  if x ∈ s then s else s ++ [x]

/-- Python `list(set(l))` for a list of strings, modelled as
first-occurrence deduplication (set iteration order is unspecified in
Python; only membership is relied on). -/
def pySetList (l : List String) : List String := l.eraseDups

/-- Python `str.lower()`, modelled character-by-character.  `Char.toLower`
lowercases ASCII letters; the values flowing through this pipeline (emails,
hosts, ips, ports, urls) are ASCII, where the two functions agree. -/
def pyLower (s : String) : String := ⟨s.data.map Char.toLower⟩

/-! ## SHA-256 (`hashlib.sha256`), as used by `_generate_artifact_id`

`IntelligenceEngine._generate_artifact_id` (src/intelligence.py:344-347)
computes `hashlib.sha256(content.encode()).hexdigest()[:16]`.  The hash is
implemented here bit-for-bit so that artifact ids are the real ones. -/

/-- Truncation to a 32-bit word. -/
def w32 (n : Nat) : Nat := n % 4294967296

/-- 32-bit right rotation. -/
def rotr (r n : Nat) : Nat := w32 ((n >>> r) ||| (n <<< (32 - r)))

/-- The 64 SHA-256 round constants. -/
def k256 : List Nat := [1116352408, 1899447441, 3049323471, 3921009573,
  961987163, 1508970993, 2453635748, 2870763221, 3624381080, 310598401,
  607225278, 1426881987, 1925078388, 2162078206, 2614888103, 3248222580,
  3835390401, 4022224774, 264347078, 604807628, 770255983, 1249150122,
  1555081692, 1996064986, 2554220882, 2821834349, 2952996808, 3210313671,
  3336571891, 3584528711, 113926993, 338241895, 666307205, 773529912,
  1294757372, 1396182291, 1695183700, 1986661051, 2177026350, 2456956037,
  2730485921, 2820302411, 3259730800, 3345764771, 3516065817, 3600352804,
  4094571909, 275423344, 430227734, 506948616, 659060556, 883997877,
  958139571, 1322822218, 1537002063, 1747873779, 1955562222, 2024104815,
  2227730452, 2361852424, 2428436474, 2756734187, 3204031479, 3329325298]

/-- The SHA-256 initial hash state. -/
def h256 : List Nat := [1779033703, 3144134277, 1013904242, 2773480762,
  1359893119, 2600822924, 528734635, 1541459225]

def ssig0 (x : Nat) : Nat := (rotr 7 x) ^^^ (rotr 18 x) ^^^ (x >>> 3)
def ssig1 (x : Nat) : Nat := (rotr 17 x) ^^^ (rotr 19 x) ^^^ (x >>> 10)
def bsig0 (x : Nat) : Nat := (rotr 2 x) ^^^ (rotr 13 x) ^^^ (rotr 22 x)
def bsig1 (x : Nat) : Nat := (rotr 6 x) ^^^ (rotr 11 x) ^^^ (rotr 25 x)

/-- UTF-8 encoding of one character (Python `str.encode()`). -/
def utf8Bytes (c : Char) : List Nat :=
  let n := c.toNat
  if n < 128 then [n]
  else if n < 2048 then [192 ||| (n >>> 6), 128 ||| (n &&& 63)]
  else if n < 65536 then
    [224 ||| (n >>> 12), 128 ||| ((n >>> 6) &&& 63), 128 ||| (n &&& 63)]
  else
    [240 ||| (n >>> 18), 128 ||| ((n >>> 12) &&& 63),
     128 ||| ((n >>> 6) &&& 63), 128 ||| (n &&& 63)]

/-- UTF-8 bytes of a string. -/
def strBytes (s : String) : List Nat := (s.data.map utf8Bytes).flatten

/-- Big-endian 64-bit length field of the SHA-256 padding. -/
def lenBytes64 (n : Nat) : List Nat :=
  [(n >>> 56) % 256, (n >>> 48) % 256, (n >>> 40) % 256, (n >>> 32) % 256,
   (n >>> 24) % 256, (n >>> 16) % 256, (n >>> 8) % 256, n % 256]

/-- SHA-256 message padding to a multiple of 64 bytes. -/
def padMessage (msg : List Nat) : List Nat :=
  let len := msg.length
  let z := (64 + 55 - (len % 64)) % 64
  msg ++ [128] ++ List.replicate z 0 ++ lenBytes64 (8 * len)

/-- Big-endian grouping of bytes into 32-bit words. -/
def bytesToWords : List Nat → List Nat
  | b0 :: b1 :: b2 :: b3 :: rest =>
      (b0 <<< 24 ||| b1 <<< 16 ||| b2 <<< 8 ||| b3) :: bytesToWords rest
  | _ => []

/-- Extension of the 16 block words to the 64-entry message schedule. -/
def extendSchedule : Nat → Array Nat → Array Nat
  | 0, w => w
  | n + 1, w =>
    let i := w.size
    let wnew := w32 (ssig1 (w.getD (i - 2) 0) + w.getD (i - 7) 0 +
                     ssig0 (w.getD (i - 15) 0) + w.getD (i - 16) 0)
    extendSchedule n (w.push wnew)

/-- The eight SHA-256 working registers. -/
structure Regs where
  a : Nat
  b : Nat
  c : Nat
  d : Nat
  e : Nat
  f : Nat
  g : Nat
  h : Nat

/-- One SHA-256 compression round. -/
def shaRound (r : Regs) (ki wi : Nat) : Regs :=
  let ch := (r.e &&& r.f) ^^^ ((4294967295 ^^^ r.e) &&& r.g)
  let t1 := w32 (r.h + bsig1 r.e + ch + ki + wi)
  let maj := (r.a &&& r.b) ^^^ (r.a &&& r.c) ^^^ (r.b &&& r.c)
  let t2 := w32 (bsig0 r.a + maj)
  ⟨w32 (t1 + t2), r.a, r.b, r.c, w32 (r.d + t1), r.e, r.f, r.g⟩

/-- SHA-256 compression of one 64-byte block into the running state. -/
def compressBlock (h : List Nat) (block : List Nat) : List Nat :=
  let w := extendSchedule 48 (bytesToWords block).toArray
  let start : Regs := ⟨h.getD 0 0, h.getD 1 0, h.getD 2 0, h.getD 3 0,
                       h.getD 4 0, h.getD 5 0, h.getD 6 0, h.getD 7 0⟩
  let fin := (List.zip k256 w.toList).foldl (fun r p => shaRound r p.1 p.2) start
  [w32 (h.getD 0 0 + fin.a), w32 (h.getD 1 0 + fin.b), w32 (h.getD 2 0 + fin.c),
   w32 (h.getD 3 0 + fin.d), w32 (h.getD 4 0 + fin.e), w32 (h.getD 5 0 + fin.f),
   w32 (h.getD 6 0 + fin.g), w32 (h.getD 7 0 + fin.h)]

/-- Lowercase hexadecimal digit. -/
def hexChar (n : Nat) : Char :=
  if n < 10 then Char.ofNat (48 + n) else Char.ofNat (87 + n)

/-- Eight lowercase hex digits of a 32-bit word. -/
def wordHex (n : Nat) : List Char :=
  [hexChar ((n >>> 28) % 16), hexChar ((n >>> 24) % 16), hexChar ((n >>> 20) % 16),
   hexChar ((n >>> 16) % 16), hexChar ((n >>> 12) % 16), hexChar ((n >>> 8) % 16),
   hexChar ((n >>> 4) % 16), hexChar (n % 16)]

/-- `hashlib.sha256(s.encode()).hexdigest()`. -/
def sha256Hex (s : String) : String :=
  let blocks := (padMessage (strBytes s)).toChunks 64
  let digest := blocks.foldl compressBlock h256
  ⟨(digest.map wordHex).flatten⟩

/-- Correctness check of the SHA-256 embedding against the standard test
vector sha256("abc"). -/
theorem sha256Hex_abc :
    sha256Hex "abc" =
      "ba7816bf8f01cfea414140de5dae2223b00361a396177a9cb410ff61f20015ad" := by
  decide

/-- `IntelligenceEngine._generate_artifact_id` (src/intelligence.py:344-347):
`content = f"{artifact_type}:{value.lower()}"`, then the first 16 hex digits
of its SHA-256 (`hexdigest()[:16]`; the digest is ASCII, so slicing 16
characters is taking 16 entries of the character list). -/
def generate_artifact_id (artifact_type value : String) : String :=
  ⟨(sha256Hex (artifact_type ++ ":" ++ pyLower value)).data.take 16⟩

/-- Sanity check of `generate_artifact_id` against the value computed by
the reference implementation (`hashlib`). -/
theorem generate_artifact_id_email :
    generate_artifact_id "email" "a@x.com" = "257e8685b7ae95c6" := by decide

/-! ## Artifact store (src/intelligence.py) -/

/-- The `Artifact` dataclass (src/intelligence.py:17-29).  `confidence` is a
Python float in [0,1], modelled as `ℚ`; `metadata` maps string keys to
string values. -/
structure Artifact where
  id : String
  type : String
  value : String
  source_plugin : String
  target : String
  category : String
  confidence : ℚ
  timestamp : String
  tags : List String
  metadata : List (String × String)
deriving DecidableEq

/-- The in-memory state of `ArtifactDatabase` (src/intelligence.py:41-58):
the `artifacts` dict keyed by artifact id, plus the two index dicts of id
sets. -/
structure ArtifactDatabase where
  artifacts : List (String × Artifact)
  artifacts_by_type : List (String × List String)
  artifacts_by_source : List (String × List String)
deriving DecidableEq

/-- A freshly constructed `ArtifactDatabase` (no storage file). -/
def emptyDatabase : ArtifactDatabase := ⟨[], [], []⟩

/-- The index-update pattern of `add_artifact`: create the bucket set if
missing, then add the id to it. -/
def indexAdd (idx : List (String × List String)) (key idv : String) :
    List (String × List String) :=
  dictInsert idx key (setAdd ((dictLookup idx key).getD []) idv)

/-- `ArtifactDatabase.add_artifact` (src/intelligence.py:60-81):
`self.artifacts[artifact.id] = artifact` plus the two index updates.
Note this is a plain dict assignment — an existing record under the same
id is overwritten, not merged. -/
def add_artifact (db : ArtifactDatabase) (a : Artifact) : ArtifactDatabase :=
  { artifacts := dictInsert db.artifacts a.id a,
    artifacts_by_type := indexAdd db.artifacts_by_type a.type a.id,
    artifacts_by_source := indexAdd db.artifacts_by_source a.source_plugin a.id }

/-- `ArtifactDatabase.find_similar_artifacts` (src/intelligence.py:101-109):
records of the same type whose value is case-insensitively equal, excluding
any record whose id equals the candidate's id.  (The `threshold` parameter
of the source is never read.) -/
def find_similar_artifacts (db : ArtifactDatabase) (a : Artifact) :
    List Artifact :=
  (db.artifacts.map Prod.snd).filter fun e =>
    e.type == a.type && pyLower e.value == pyLower a.value && e.id != a.id

/-- Structured plugin output (`parse_output` result), restricted to the
field vocabulary read by `_extract_artifacts_from_parsed_data`
(src/intelligence.py:205-342).  `none` models an absent key; `open_ports`
and `services` entries are dicts. -/
structure ParsedData where
  emails : Option (List String) := none
  hosts : Option (List String) := none
  ips : Option (List String) := none
  open_ports : Option (List (List (String × String))) := none
  services : Option (List (List (String × String))) := none
  people : Option (List String) := none
  urls : Option (List String) := none
deriving DecidableEq

/-- Artifact built for one entry of `parsed_data["emails"]`
(src/intelligence.py:217-231). -/
def mkEmailArtifact (plugin target category ts email : String) : Artifact :=
  { id := generate_artifact_id "email" email, type := "email", value := email,
    source_plugin := plugin, target := target, category := category,
    confidence := 0.8, timestamp := ts, tags := ["email", "contact"],
    metadata := [("domain",
      if email.contains '@' then (email.splitOn "@").getD 1 "" else "")] }

/-- Artifact built for one entry of `parsed_data["hosts"]`
(src/intelligence.py:234-248). -/
def mkHostArtifact (plugin target category ts host : String) : Artifact :=
  { id := generate_artifact_id "domain" host, type := "domain", value := host,
    source_plugin := plugin, target := target, category := category,
    confidence := 0.9, timestamp := ts, tags := ["domain", "infrastructure"],
    metadata := [] }

/-- Artifact built for one entry of `parsed_data["ips"]`
(src/intelligence.py:251-265). -/
def mkIpArtifact (plugin target category ts ip : String) : Artifact :=
  { id := generate_artifact_id "ip" ip, type := "ip", value := ip,
    source_plugin := plugin, target := target, category := category,
    confidence := 0.9, timestamp := ts, tags := ["ip", "infrastructure"],
    metadata := [] }

/-- Artifact built for one open-port dict (src/intelligence.py:268-287);
only entries with `state == "open"` produce one. -/
def mkPortArtifact (plugin target category ts : String)
    (pi : List (String × String)) : Artifact :=
  let port_value := (dictLookup pi "port").getD "unknown" ++ "/" ++
                    (dictLookup pi "protocol").getD "tcp"
  { id := generate_artifact_id "port" port_value, type := "port",
    value := port_value, source_plugin := plugin, target := target,
    category := category, confidence := 0.95, timestamp := ts,
    tags := ["port", "service", "network"],
    metadata := [("service", (dictLookup pi "service").getD ""),
                 ("host", (dictLookup pi "host").getD target)] }

/-- Artifact built for one service dict (src/intelligence.py:290-306);
the whole dict becomes the metadata. -/
def mkServiceArtifact (plugin target category ts : String)
    (si : List (String × String)) : Artifact :=
  let service_name := (dictLookup si "service").getD "unknown"
  { id := generate_artifact_id "service" service_name, type := "service",
    value := service_name, source_plugin := plugin, target := target,
    category := category, confidence := 0.85, timestamp := ts,
    tags := ["service", "network"], metadata := si }

/-- Artifact built for one entry of `parsed_data["people"]`
(src/intelligence.py:309-323). -/
def mkPersonArtifact (plugin target category ts person : String) : Artifact :=
  { id := generate_artifact_id "person" person, type := "person",
    value := person, source_plugin := plugin, target := target,
    category := category, confidence := 0.7, timestamp := ts,
    tags := ["person", "osint"], metadata := [] }

/-- Artifact built for one entry of `parsed_data["urls"]`
(src/intelligence.py:326-340). -/
def mkUrlArtifact (plugin target category ts url : String) : Artifact :=
  { id := generate_artifact_id "url" url, type := "url", value := url,
    source_plugin := plugin, target := target, category := category,
    confidence := 0.8, timestamp := ts, tags := ["url", "web"],
    metadata := [] }

/-- `IntelligenceEngine._extract_artifacts_from_parsed_data`
(src/intelligence.py:205-342).  `ts` stands for the
`datetime.now().isoformat()` taken at the start of the call; the seven
field sections run in source order.  (The `isinstance(_, dict)` guards
hold by construction in this typed model.) -/
def extract_artifacts_from_parsed_data (pd : ParsedData)
    (plugin target category ts : String) : List Artifact :=
  ((pd.emails.getD []).map (mkEmailArtifact plugin target category ts)) ++
  ((pd.hosts.getD []).map (mkHostArtifact plugin target category ts)) ++
  ((pd.ips.getD []).map (mkIpArtifact plugin target category ts)) ++
  (((pd.open_ports.getD []).filter
      (fun pi => dictLookup pi "state" == some "open")).map
    (mkPortArtifact plugin target category ts)) ++
  ((pd.services.getD []).map (mkServiceArtifact plugin target category ts)) ++
  ((pd.people.getD []).map (mkPersonArtifact plugin target category ts)) ++
  ((pd.urls.getD []).map (mkUrlArtifact plugin target category ts))

/-- Python `max(similar, key=lambda a: a.confidence)`: the first element of
maximal confidence, `none` on an empty list (where Python would raise —
the source only calls it on a non-empty list). -/
def maxByConfidence (l : List Artifact) : Option Artifact :=
  match l with
  | [] => none
  | h :: t => some (t.foldl (fun b x => if x.confidence > b.confidence then x else b) h)

/-- The in-place merge of `_deduplicate_artifacts` (src/intelligence.py:
364-368), applied to the db record of the given id: confidence becomes the
candidate's, tags `list(set(old + new))`, metadata updated with candidate
values winning. -/
def mergeInto (db : ArtifactDatabase) (bestId : String) (a : Artifact) :
    ArtifactDatabase :=
  { db with artifacts := db.artifacts.map fun p =>
      if p.1 = bestId then
        (p.1, { p.2 with confidence := a.confidence,
                         tags := pySetList (p.2.tags ++ a.tags),
                         metadata := dictUpdate p.2.metadata a.metadata })
      else p }

/-- One iteration of the loop of `IntelligenceEngine._deduplicate_artifacts`
(src/intelligence.py:349-374), threading the mutable database, the
`seen_ids` set and the `deduplicated` accumulator.  A candidate whose id
was already seen is dropped; a candidate with similar existing records is
dropped after (at most) merging into the best similar record; otherwise it
is kept.  (The mutated `best_similar` object is the db entry keyed by its
id: every record enters the store through `add_artifact`, which keys it by
its own id.) -/
def dedupStep (st : ArtifactDatabase × List String × List Artifact)
    (a : Artifact) : ArtifactDatabase × List String × List Artifact :=
  let db := st.1
  let seen := st.2.1
  let kept := st.2.2
  if a.id ∈ seen then (db, seen, kept)
  else
    match maxByConfidence (find_similar_artifacts db a) with
    | some best =>
        if a.confidence > best.confidence then (mergeInto db best.id a, seen, kept)
        else (db, seen, kept)
    | none => (db, seen ++ [a.id], kept ++ [a])

/-- `IntelligenceEngine._deduplicate_artifacts` (src/intelligence.py:
349-374): returns the database (mutated by merges) and the surviving
candidate list. -/
def deduplicate_artifacts (db : ArtifactDatabase) (arts : List Artifact) :
    ArtifactDatabase × List Artifact :=
  let st := arts.foldl dedupStep (db, [], [])
  (st.1, st.2.2)

/-- The ingestion tail of `process_plugin_results`
(src/intelligence.py:196-203): deduplicate the candidate batch, then
`add_artifact` each survivor. -/
def ingestArtifacts (db : ArtifactDatabase) (arts : List Artifact) :
    ArtifactDatabase :=
  let st := deduplicate_artifacts db arts
  st.2.foldl add_artifact st.1

/-! ## Plugin contract (src/plugins/base.py) -/

/-- The result dictionary returned by `PluginBase.execute`: the union of
the keys of the five return sites (src/plugins/base.py:120-202), with
`none` for keys a given envelope does not carry. -/
structure PluginResult where
  status : String
  plugin : String
  target : String
  category : String
  reason : Option String := none
  command : Option String := none
  return_code : Option Int := none
  stdout : Option String := none
  stderr : Option String := none
  parsed_data : Option ParsedData := none
  execution_time : Option ℚ := none
deriving DecidableEq

/-- Outcome of the spawned subprocess within the wall-clock timeout:
either `communicate()` returned (stdout, stderr already decoded with
`errors="ignore"`, which cannot raise) with the process return code, or
`asyncio.wait_for` timed out. -/
inductive ProcOutcome where
  | completed (stdout stderr : String) (returncode : Option Int)
  | timedOut
deriving DecidableEq

instance {α β : Type} [DecidableEq α] [DecidableEq β] :
    DecidableEq (Except α β) := fun x y =>
  match x, y with
  | .error a, .error b => decidable_of_iff (a = b) (by simp)
  | .error _, .ok _ => isFalse (by simp)
  | .ok _, .error _ => isFalse (by simp)
  | .ok a, .ok b => decidable_of_iff (a = b) (by simp)

/-- The ambient behaviour of one `PluginBase.execute` call: what
`is_available()` and `validate_target` return, and what each fallible step
does (`.error msg` models an exception whose `str` is `msg`). -/
structure ExecEnv where
  available : Bool
  valid : Bool
  build : Except String String
  spawn : Except String ProcOutcome
  parse : Except String ParsedData
deriving DecidableEq

/-- Shared shape of the error/skip envelopes of `execute`, which carry
only status, reason and the identifying fields. -/
def plainEnvelope (status reason name target category : String) : PluginResult :=
  { status := status, reason := some reason, plugin := name,
    target := target, category := category }

/-- `PluginBase.execute` (src/plugins/base.py:107-202).  Control flow as
in the source: availability check, target validation, timeout defaulting
(`timeout or self._timeout`, so a 0 or absent timeout becomes 120),
command build, spawn, wait with timeout, parse.  On the all-success path
the source constructs the success dictionary of lines 166-177, whose last
entry reads the name `execution_time` — a name never assigned in `execute`
— so evaluating it raises `NameError`, which the handler of line 194
catches and turns into the generic error envelope with `str(e)`. -/
def plugin_execute (name : String) (required_tools : List String)
    (env : ExecEnv) (target category : String) (timeout : Option Nat) :
    PluginResult :=
  if !env.available then
    plainEnvelope "skipped"
      ("Required tools not available: " ++ String.intercalate ", " required_tools)
      name target category
  else if !env.valid then
    plainEnvelope "error"
      ("Invalid target '" ++ target ++ "' for category '" ++ category ++ "'")
      name target category
  else
    let exec_timeout := match timeout with
      | none => 120
      | some t => if t = 0 then 120 else t
    match env.build with
    | .error e => plainEnvelope "error" e name target category
    | .ok command =>
      match env.spawn with
      | .error e => plainEnvelope "error" e name target category
      | .ok .timedOut =>
          { plainEnvelope "timeout"
              ("Command timed out after " ++ toString exec_timeout ++ " seconds")
              name target category with
            command := some command }
      | .ok (.completed _ _ _) =>
        match env.parse with
        | .error e => plainEnvelope "error" e name target category
        | .ok _ =>
            plainEnvelope "error" "name 'execution_time' is not defined"
              name target category

/-! ## Async worker pool (src/async_worker.py) -/

/-- `TaskStatus` (src/async_worker.py:15-22). -/
inductive TaskStatus where
  | pending
  | running
  | completed
  | failed
  | timeout
  | cancelled
deriving DecidableEq

/-- The `.value` string of each `TaskStatus` member. -/
def TaskStatus.value : TaskStatus → String
  | .pending => "pending"
  | .running => "running"
  | .completed => "completed"
  | .failed => "failed"
  | .timeout => "timeout"
  | .cancelled => "cancelled"

/-- The `Task` dataclass (src/async_worker.py:25-44).  Timestamps are
`time.time()` floats, modelled as `ℚ`.  The `kwargs` map is not modelled:
no claim depends on it and it is passed through opaquely. -/
structure Task where
  id : String
  plugin_name : String
  target : String
  category : String
  status : TaskStatus := .pending
  result : Option PluginResult := none
  error : Option String := none
  start_time : Option ℚ := none
  end_time : Option ℚ := none
deriving DecidableEq

/-- `Task.duration` (src/async_worker.py:39-44): `end - start` when both
are set, `None` otherwise.  The source tests Python truthiness
(`if self.start_time and self.end_time`), so a 0.0 timestamp also yields
`None`. -/
def Task.duration (t : Task) : Option ℚ :=
  match t.start_time, t.end_time with
  | some s, some e => if s ≠ 0 ∧ e ≠ 0 then some (e - s) else none
  | _, _ => none

/-- The names bound at module level of src/async_worker.py (its imports,
lines 7-12, and its top-level declarations, lines 15, 25 and 47).  Python
resolves a bare name used inside a method against these module globals
(after function locals) — note that `PLUGIN_REGISTRY` is not among them. -/
def asyncWorkerModuleGlobals : List String :=
  ["asyncio", "logging", "List", "Dict", "Any", "Optional", "Callable",
   "Awaitable", "dataclass", "Enum", "time", "TaskStatus", "Task",
   "AsyncWorkerPool"]

/-- A registered plugin as `_execute_task` would use it: its
`required_tools` and the ambient behaviour of its `execute` call. -/
structure PluginSpec where
  required_tools : List String
  env : ExecEnv
deriving DecidableEq

/-- The ambient environment of one `_execute_task` call: the module
globals it resolves names against, the contents the `PLUGIN_REGISTRY`
dict would have (were the name defined), the default registrations of
lines 272-274, and the pool's `default_timeout`. -/
structure WorkerEnv where
  globals : List String
  registry : List (String × PluginSpec)
  defaults : List (String × PluginSpec)
  default_timeout : Nat := 120
deriving DecidableEq

/-- An exception escaping the `try` body of `_execute_task`:
`asyncio.TimeoutError` is caught separately (line 294) from any other
exception (line 299). -/
inductive TaskExc where
  | timeoutErr (msg : String)
  | exc (msg : String)
deriving DecidableEq

/-- The `try` body of `AsyncWorkerPool._execute_task`
(src/async_worker.py:267-288).  Its first statement reading the bare name
`PLUGIN_REGISTRY` (line 272) raises
`NameError: name 'PLUGIN_REGISTRY' is not defined` unless that name is a
module global.  Otherwise the registry (defaulted when empty) is
consulted, an unknown plugin name raises `ValueError`, and the plugin's
`execute` coroutine — which returns its envelope and never lets an
exception escape past its own availability check — is awaited with the
pool's `default_timeout`.  No statement of this body can raise
`asyncio.TimeoutError`: `plugin.execute` catches its own `wait_for`
timeout internally (src/plugins/base.py:179-192), so `.timeoutErr` is
never produced. -/
def runTaskBody (env : WorkerEnv) (task : Task) : Except TaskExc PluginResult :=
  if "PLUGIN_REGISTRY" ∈ env.globals then
    let reg := if env.registry.isEmpty then env.defaults else env.registry
    match dictLookup reg task.plugin_name with
    | none => .error (.exc ("Unknown plugin: " ++ task.plugin_name))
    | some spec =>
        .ok (plugin_execute task.plugin_name spec.required_tools spec.env
              task.target task.category (some env.default_timeout))
  else .error (.exc "name 'PLUGIN_REGISTRY' is not defined")

/-- `AsyncWorkerPool._execute_task` (src/async_worker.py:253-313) as a
function from the task's record to its final record: the task is marked
RUNNING with its start time, the body runs, the handlers set the terminal
status, and the `finally` block records the end time.  `t` and `tf` are
the two `time.time()` readings. -/
def execute_task (env : WorkerEnv) (t tf : ℚ) (task : Task) : Task :=
  let running := { task with status := .running, start_time := some t }
  match runTaskBody env running with
  | .ok r =>
      { running with status := .completed, result := some r, end_time := some tf }
  | .error (.timeoutErr _) =>
      { running with
        status := .timeout,
        error := some ("Task timed out after " ++
                       toString env.default_timeout ++ " seconds"),
        end_time := some tf }
  | .error (.exc e) =>
      { running with status := .failed, error := some e, end_time := some tf }

/-- The task id format of `execute_plugin_batch`
(src/async_worker.py:161): plugin name, target, category and the
millisecond clock reading at creation. -/
def taskId (name target category : String) (ms : Nat) : String :=
  name ++ "_" ++ target ++ "_" ++ category ++ "_" ++ toString ms

/-- Task creation of `execute_plugin_batch` (src/async_worker.py:158-170):
one PENDING task per plugin, `ms i` being the clock reading at the i-th
creation. -/
def mkBatchTasks (plugins : List String) (target category : String)
    (ms : Nat → Nat) : List Task :=
  match plugins with
  | [] => []
  | name :: rest =>
      { id := taskId name target category (ms 0), plugin_name := name,
        target := target, category := category } ::
      mkBatchTasks rest target category (fun i => ms (i + 1))

/-- The result entry `wait_for_tasks` builds per task
(src/async_worker.py:209-223), sans the redundant `task_id` echo key. -/
structure ResultEntry where
  plugin : String
  status : String
  result : Option PluginResult := none
  error : Option String := none
  duration : Option ℚ := none
deriving DecidableEq

/-- `wait_for_tasks`'s view of a finished task (src/async_worker.py:
211-221). -/
def resultOfTask (task : Task) : ResultEntry :=
  { plugin := task.plugin_name, status := task.status.value,
    result := task.result, error := task.error, duration := task.duration }

/-- `AsyncWorkerPool.execute_plugin_batch` (src/async_worker.py:134-176)
followed by its `wait_for_tasks`: every created task is dequeued by some
worker and run through `_execute_task` — whose final record depends only
on that task's own fields — and the result map is collected from the
terminal records.  Each task's wall-clock readings are supplied by `t`
and `tf` at its index. -/
def execute_plugin_batch (env : WorkerEnv) (plugins : List String)
    (target category : String) (ms : Nat → Nat) (t tf : ℚ) :
    List (String × ResultEntry) :=
  (mkBatchTasks plugins target category ms).map fun task =>
    let fin := execute_task env t tf task
    (fin.id, resultOfTask fin)

/-- The pool state relevant to `start`/`stop`
(src/async_worker.py:63-115): the `running` flag, the worker tasks, and
the task map. -/
structure PoolState where
  running : Bool
  workers : List String
  tasks : List (String × Task)
deriving DecidableEq

/-- `AsyncWorkerPool.stop` (src/async_worker.py:99-115): a no-op when not
running; otherwise it clears `running`, cancels every worker task, awaits
them (`gather(..., return_exceptions=True)`) and clears the worker list.
No statement on this path — nor in the cancellation-unwinding of a worker,
since `asyncio.CancelledError` is a `BaseException` the handlers of
`_execute_task` do not catch — assigns any task's `status`; in particular
`TaskStatus.CANCELLED` is never assigned anywhere in the module. -/
def pool_stop (s : PoolState) : PoolState :=
  if !s.running then s
  else { s with running := false, workers := [] }

/-- The extraction loop of `IntelligenceEngine.process_plugin_results`
(src/intelligence.py:180-194): candidate artifacts from every completed
result entry carrying a result payload.  `parsed_data` defaults to the
empty dict when the envelope lacks it. -/
def extractedArtifacts (results : List (String × ResultEntry))
    (target category ts : String) : List Artifact :=
  (results.map fun p =>
    if p.2.status == "completed" then
      match p.2.result with
      | some r =>
          extract_artifacts_from_parsed_data (r.parsed_data.getD {})
            p.2.plugin target category ts
      | none => []
    else []).flatten

/-- `IntelligenceEngine.process_plugin_results`
(src/intelligence.py:168-203): extract candidate artifacts, deduplicate
them, `add_artifact` the survivors, and return the new database with the
deduplicated list. -/
def process_plugin_results (db : ArtifactDatabase)
    (results : List (String × ResultEntry)) (target category ts : String) :
    ArtifactDatabase × List Artifact :=
  let arts := extractedArtifacts results target category ts
  let st := deduplicate_artifacts db arts
  (st.2.foldl add_artifact st.1, st.2)

/-! ## Chaining (src/plugins/discovery.py, src/detectivejoe.py) -/

/-- The manifest fields consulted by chaining
(src/plugins/discovery.py:16-48): plugin name, declared `consumes`
artifact types, and `chain_priority` (manifest default 5). -/
structure PluginManifest where
  name : String
  consumes : List String
  chain_priority : Int := 5
deriving DecidableEq

/-- Stable ascending insertion for `list.sort(key=...)`: an element is
placed before the first element of strictly greater key, so original
order is kept among equal keys, as Python's stable sort guarantees. -/
def insertByPriority (key : String → Int) (x : String) :
    List String → List String
  | [] => [x]
  | y :: ys => if key x ≤ key y then x :: y :: ys else y :: insertByPriority key x ys

/-- Python's stable `list.sort(key=...)` as insertion sort. -/
def sortByPriority (key : String → Int) (l : List String) : List String :=
  l.foldr (insertByPriority key) []

/-- `self.manifests[name].chain_priority`: the priority of the named
manifest (names passed in always come from the manifest list itself, so
the default is unreachable). -/
def manifestPriority (manifests : List PluginManifest) (name : String) : Int :=
  match manifests.find? (fun m => m.name == name) with
  | some m => m.chain_priority
  | none => 0

/-- `PluginDiscovery.get_chaining_candidates`
(src/plugins/discovery.py:187-205): the names of manifests whose
`consumes` set meets the given artifact types, sorted ascending by chain
priority (stably, in manifest-registration order). -/
def get_chaining_candidates (manifests : List PluginManifest)
    (artifacts : List String) : List String :=
  let candidates := (manifests.filter fun m =>
    artifacts.any fun a => m.consumes.contains a).map PluginManifest.name
  sortByPriority (manifestPriority manifests) candidates

/-- `IntelligenceEngine.get_chainable_artifacts`
(src/intelligence.py:389-428): the fixed six-key map from chainable type
to the deduplicated artifact values of the store. -/
def get_chainable_artifacts (db : ArtifactDatabase) :
    List (String × List String) :=
  let arts := db.artifacts.map Prod.snd
  let domains := arts.filterMap fun a =>
    if a.type == "domain" then some a.value else none
  let ips := arts.filterMap fun a =>
    if a.type == "ip" then some a.value else none
  let emails := arts.filterMap fun a =>
    if a.type == "email" then some a.value else none
  let organizations := arts.filterMap fun a =>
    if a.type == "email" && a.value.contains '@' then
      some ((a.value.splitOn "@").getD 1 "") else none
  let people := arts.filterMap fun a =>
    if a.type == "person" then some a.value else none
  [("domains", pySetList domains), ("ips", pySetList ips),
   ("emails", pySetList emails), ("hostnames", pySetList domains),
   ("organizations", pySetList organizations),
   ("people_names", pySetList people)]

/-- The candidate truncation of `_perform_artifact_chaining`
(src/detectivejoe.py:425-430): `low` keeps the single highest-priority
candidate, `medium` the top two, any other aggressiveness all. -/
def aggTruncate (agg : String) (cands : List String) : List String :=
  if agg == "low" then cands.take 1
  else if agg == "medium" then cands.take 2
  else cands

/-- The per-type target truncation of `_perform_artifact_chaining`
(src/detectivejoe.py:437): first 5 values under `low`, first 10
otherwise. -/
def chainTargets (agg : String) (values : List String) : List String :=
  if agg == "low" then values.take 5 else values.take 10

/-- One entry of `investigation_state["chained_tasks"]`
(src/detectivejoe.py:456-461). -/
structure ChainRecord where
  plugin : String
  target : String
  source_artifact_type : String
  status : String
deriving DecidableEq

/-- The body of `_perform_artifact_chaining` for one chainable artifact
type (src/detectivejoe.py:418-464): skip empty value lists, select and
truncate candidates, and for each candidate that is a loaded and available
plugin submit one secondary task per truncated value.  `runChained`
stands for the Scheduler collaborator
(`worker_pool.execute_plugin_batch([plugin], target, ...)` with halved
timeout): it yields the single result entry of that one-plugin batch,
whose status is recorded in the chain record. -/
def chainForType (manifests : List PluginManifest) (plugins : List String)
    (available : String → Bool) (agg ty : String) (values : List String)
    (runChained : String → String → ResultEntry) : List ChainRecord :=
  if values.isEmpty then []
  else
    (aggTruncate agg (get_chaining_candidates manifests [ty])).foldl
      (fun acc name =>
        if plugins.contains name && available name then
          acc ++ (chainTargets agg values).map fun tgt =>
            { plugin := name, target := tgt, source_artifact_type := ty,
              status := (runChained name tgt).status }
        else acc) []

/-- `DetectiveJoe._perform_artifact_chaining`
(src/detectivejoe.py:391-467): guarded by `scan_depth`, it walks the
chainable map in key order and accumulates the chain records of every
type.  (`max_depth <= 1` returns early; the caller additionally only
invokes it when `scan_depth > 1`.) -/
def perform_artifact_chaining (manifests : List PluginManifest)
    (plugins : List String) (available : String → Bool) (scan_depth : Nat)
    (agg : String) (chainable : List (String × List String))
    (runChained : String → String → ResultEntry) : List ChainRecord :=
  if scan_depth ≤ 1 then []
  else chainable.foldl
    (fun acc p =>
      acc ++ chainForType manifests plugins available agg p.1 p.2 runChained) []

/-! ## Summary (src/detectivejoe.py:605-637) -/

/-- Python `round(x, 2)` (banker's rounding, half to even) on the
rational model of floats. -/
def pyRound2 (q : ℚ) : ℚ :=
  let x := q * 100
  let fl : ℤ := Int.floor x
  let fr : ℚ := x - fl
  let n : ℤ :=
    if fr > 1/2 then fl + 1
    else if fr < 1/2 then fl
    else if fl % 2 = 0 then fl else fl + 1
  (n : ℚ) / 100

/-- The summary dictionary of `DetectiveJoe._generate_summary`
(src/detectivejoe.py:629-637). -/
structure Summary where
  total_tasks : Nat
  successful_tasks : Nat
  failed_tasks : Nat
  success_rate : ℚ
  total_execution_time : ℚ
  total_artifacts : Nat
  artifact_types : List (String × Nat)
deriving DecidableEq

/-- `artifact.get("type", "unknown")` — the summary treats artifacts as
dicts. -/
def artifactTypeOf (d : List (String × String)) : String :=
  (dictLookup d "type").getD "unknown"

/-- The artifact-type histogram loop (src/detectivejoe.py:621-624). -/
def histFold (acc : List (String × Nat)) (l : List (List (String × String))) :
    List (String × Nat) :=
  l.foldl (fun acc d =>
    let ty := artifactTypeOf d
    dictInsert acc ty ((dictLookup acc ty).getD 0 + 1)) acc

/-- `DetectiveJoe._generate_summary` (src/detectivejoe.py:605-637).
`sum(r.get("duration", 0) for r in results.values())` raises `TypeError`
when any entry's duration is `None` (the key is always present in entries
built by `wait_for_tasks`), which is modelled by returning `none`;
otherwise the summary dictionary is built from pure counts over the two
inputs. -/
def generate_summary (results : List (String × ResultEntry))
    (artifacts : List (List (String × String))) : Option Summary :=
  let total := results.length
  let succ := (results.filter fun p => p.2.status == "completed").length
  if results.all (fun p => p.2.duration.isSome) then
    let total_time := (results.map fun p => p.2.duration.getD 0).sum
    some { total_tasks := total, successful_tasks := succ,
           failed_tasks := total - succ,
           success_rate := if 0 < total then (succ : ℚ) / (total : ℚ) * 100 else 0,
           total_execution_time := pyRound2 total_time,
           total_artifacts := artifacts.length,
           artifact_types := histFold [] artifacts }
  else none

/-! ## Store well-formedness

Every artifact entering the store goes through `add_artifact`, which keys
the record by its own `id`, and every id produced by the pipeline comes
from `_generate_artifact_id`.  These two run-time facts are captured as
predicates. -/

/-- The artifact's id is the one `_generate_artifact_id` derives from its
type and value — true of every artifact built by
`_extract_artifacts_from_parsed_data`. -/
def HasGenId (a : Artifact) : Prop :=
  a.id = generate_artifact_id a.type a.value

instance (a : Artifact) : Decidable (HasGenId a) :=
  inferInstanceAs (Decidable (a.id = generate_artifact_id a.type a.value))

/-- Store invariant: each record is keyed by its own id, ids come from
`_generate_artifact_id`, and keys are pairwise distinct (dict keys). -/
def StoreWF (db : ArtifactDatabase) : Prop :=
  (∀ p ∈ db.artifacts, p.1 = p.2.id ∧ HasGenId p.2) ∧
  (db.artifacts.map Prod.fst).Nodup

instance (db : ArtifactDatabase) : Decidable (StoreWF db) :=
  inferInstanceAs (Decidable (And _ _))

/-- In-batch first-occurrence deduplication by id: the specification of
what `_deduplicate_artifacts` computes on a well-formed store (where the
merge branch is unreachable).  Returns the survivors and the final
`seen_ids`. -/
def dedupPure : List Artifact → List String → List Artifact × List String
  | [], seen => ([], seen)
  | a :: rest, seen =>
      if a.id ∈ seen then dedupPure rest seen
      else
        let st := dedupPure rest (seen ++ [a.id])
        (a :: st.1, st.2)

/-! ## Concrete fixtures used by counterexamples and witnesses -/

/-- A candidate of confidence 0.9 for the identity (email, a@x.com); its
id field carries the value `_generate_artifact_id` produces for it (the
equality is checked in `generate_artifact_id_email`). -/
def art09 : Artifact :=
  { id := "257e8685b7ae95c6", type := "email", value := "a@x.com",
    source_plugin := "theharvester", target := "x.com", category := "website",
    confidence := 0.9, timestamp := "t0", tags := ["email", "t1"],
    metadata := [] }

/-- A candidate of confidence 0.7 for the same identity, ingested in a
later batch, carrying a tag the first candidate lacks. -/
def art07 : Artifact :=
  { id := "257e8685b7ae95c6", type := "email", value := "a@x.com",
    source_plugin := "whois", target := "x.com", category := "website",
    confidence := 0.7, timestamp := "t1", tags := ["email", "t2"],
    metadata := [] }

/-- The artifact extraction builds for the email value a@x.com. -/
def emailLower : Artifact :=
  mkEmailArtifact "theharvester" "x.com" "website" "t0" "a@x.com"

/-- The artifact extraction builds for the email value A@X.COM — the same
identity as `emailLower` up to case. -/
def emailUpper : Artifact :=
  mkEmailArtifact "theharvester" "x.com" "website" "t0" "A@X.COM"

/-- One completed task-result entry whose envelope carries a parsed email,
as `process_plugin_results` consumes it. -/
def demoResults : List (String × ResultEntry) :=
  [("task1",
    { plugin := "theharvester", status := "completed",
      result := some
        { status := "success", plugin := "theharvester", target := "x.com",
          category := "website",
          parsed_data := some { emails := some ["a@x.com"] } },
      duration := some 1 })]

/-- A plugin whose process finishes promptly. -/
def fastSpec : PluginSpec :=
  ⟨["echo"], ⟨true, true, .ok "echo hi", .ok (.completed "hi" "" (some 0)), .ok {}⟩⟩

/-- A plugin whose process exceeds the wall-clock timeout
(`asyncio.wait_for` times out). -/
def slowSpec : PluginSpec :=
  ⟨["sleeper"], ⟨true, true, .ok "sleeper", .ok .timedOut, .ok {}⟩⟩

/-- A worker environment with the module globals of src/async_worker.py
and a registry holding the two plugins above. -/
def demoWorkerEnv : WorkerEnv :=
  ⟨asyncWorkerModuleGlobals, [("fast", fastSpec), ("slow", slowSpec)], [], 80⟩

/-- A task currently RUNNING (as a worker would leave it mid-execution). -/
def runningTask : Task :=
  { id := "t1", plugin_name := "nmap", target := "x.com",
    category := "website", status := .running, start_time := some 1 }

/-- A pool that is running two workers while `runningTask` is RUNNING. -/
def runningPool : PoolState :=
  ⟨true, ["worker-0", "worker-1"], [("t1", runningTask)]⟩

/-- The execution environment of the tests' MockPlugin: the `echo` tool is
available, the target validates, the process completes promptly and the
output parses. -/
def mockEnv : ExecEnv :=
  ⟨true, true, .ok "echo Mock test for example.com",
   .ok (.completed "Mock test for example.com\n" "" (some 0)), .ok {}⟩

/-- An environment in which the tool is available but the target fails
`validate_target` (e.g. a URL-prefixed host given to the nmap plugin). -/
def invalidTargetEnv : ExecEnv :=
  ⟨true, false, .ok "nmap http://example.com",
   .ok (.completed "" "" (some 0)), .ok {}⟩

/-- Three manifests able to consume domain artifacts, at chain priorities
1, 2 and 3. -/
def chainManifests : List PluginManifest :=
  [⟨"nmap", ["domains", "ips"], 1⟩, ⟨"theharvester", ["domains", "emails"], 2⟩,
   ⟨"whois", ["domains"], 3⟩]

/-- Eight chainable domain values. -/
def domainValues : List String :=
  ["d1.com", "d2.com", "d3.com", "d4.com", "d5.com", "d6.com", "d7.com",
   "d8.com"]

/-- A Scheduler collaborator for chaining: every secondary one-plugin
batch yields one FAILED entry (as the pool as written produces). -/
def chainRun : String → String → ResultEntry := fun name _ =>
  { plugin := name, status := "failed",
    error := some "name 'PLUGIN_REGISTRY' is not defined" }

/-- A result map holding one completed and one timed-out entry. -/
def demoSummaryResults : List (String × ResultEntry) :=
  [("t1", { plugin := "a", status := "completed", duration := some 1 }),
   ("t2", { plugin := "b", status := "timeout", duration := some 2 })]

/-! ## Dictionary and index lemmas -/

theorem dictLookup_insert_self {α : Type} (m : List (String × α)) (k : String)
    (v : α) : dictLookup (dictInsert m k v) k = some v := by
  induction m with
  | nil => simp [dictInsert, dictLookup]
  | cons p rest ih =>
      obtain ⟨k₁, v₁⟩ := p
      by_cases h : k₁ = k
      · simp [dictInsert, h, dictLookup]
      · simp [dictInsert, h, dictLookup, ih]

theorem dictLookup_insert_ne {α : Type} (m : List (String × α)) (k : String)
    (v : α) (k' : String) (h : k' ≠ k) :
    dictLookup (dictInsert m k v) k' = dictLookup m k' := by
  induction m with
  | nil => simp [dictInsert, dictLookup, Ne.symm h]
  | cons p rest ih =>
      obtain ⟨k₁, v₁⟩ := p
      by_cases h₁ : k₁ = k
      · subst h₁
        simp [dictInsert, dictLookup, Ne.symm h]
      · by_cases h₂ : k₁ = k'
        · simp [dictInsert, h₁, dictLookup, h₂, h]
        · simp [dictInsert, h₁, dictLookup, h₂, ih]

theorem mem_dictInsert {α : Type} (m : List (String × α)) (k : String) (v : α)
    (p : String × α) (hp : p ∈ dictInsert m k v) : p = (k, v) ∨ p ∈ m := by
  induction m with
  | nil => simpa [dictInsert] using hp
  | cons q rest ih =>
      obtain ⟨k₁, v₁⟩ := q
      by_cases h : k₁ = k
      · simp [dictInsert, h] at hp
        rcases hp with h' | h'
        · exact Or.inl h'
        · exact Or.inr (List.mem_cons_of_mem _ h')
      · simp [dictInsert, h] at hp
        rcases hp with h' | h'
        · exact Or.inr (by simp [h'])
        · rcases ih h' with h'' | h''
          · exact Or.inl h''
          · exact Or.inr (List.mem_cons_of_mem _ h'')

theorem keys_dictInsert {α : Type} (m : List (String × α)) (k : String) (v : α) :
    (dictInsert m k v).map Prod.fst =
      if k ∈ m.map Prod.fst then m.map Prod.fst else m.map Prod.fst ++ [k] := by
  induction m with
  | nil => simp [dictInsert]
  | cons q rest ih =>
      obtain ⟨k₁, v₁⟩ := q
      by_cases h : k₁ = k
      · simp [dictInsert, h]
      · simp [dictInsert, h, ih, Ne.symm h]
        by_cases h' : k ∈ rest.map Prod.fst <;> simp [h', Ne.symm h]

theorem nodup_keys_dictInsert {α : Type} (m : List (String × α)) (k : String)
    (v : α) (h : (m.map Prod.fst).Nodup) :
    ((dictInsert m k v).map Prod.fst).Nodup := by
  rw [keys_dictInsert]
  by_cases h' : k ∈ m.map Prod.fst
  · simpa [h']
  · simpa [h', List.nodup_append] using h

theorem dictInsert_eq_self {α : Type} (m : List (String × α)) (k : String)
    (v : α) (h : dictLookup m k = some v) : dictInsert m k v = m := by
  induction m with
  | nil => simp [dictLookup] at h
  | cons q rest ih =>
      obtain ⟨k₁, v₁⟩ := q
      by_cases h₁ : k₁ = k
      · subst h₁
        simp [dictLookup] at h
        simp [dictInsert, h]
      · simp [dictLookup, h₁] at h
        simp [dictInsert, h₁, ih h]

theorem mem_of_dictLookup {α : Type} (m : List (String × α)) (k : String)
    (v : α) (h : dictLookup m k = some v) : (k, v) ∈ m := by
  induction m with
  | nil => simp [dictLookup] at h
  | cons q rest ih =>
      obtain ⟨k₁, v₁⟩ := q
      by_cases h₁ : k₁ = k
      · subst h₁
        simp [dictLookup] at h
        simp [h]
      · simp [dictLookup, h₁] at h
        exact List.mem_cons_of_mem _ (ih h)

theorem nodup_keys_entry_eq {α : Type} (m : List (String × α))
    (h : (m.map Prod.fst).Nodup) (p q : String × α) (hp : p ∈ m) (hq : q ∈ m)
    (hk : p.1 = q.1) : p = q := by
  induction m with
  | nil => simp at hp
  | cons r rest ih =>
      rw [List.map_cons, List.nodup_cons] at h
      rcases List.mem_cons.mp hp with rfl | hp' <;>
        rcases List.mem_cons.mp hq with rfl | hq'
      · rfl
      · exact absurd (by rw [hk]; exact List.mem_map.mpr ⟨q, hq', rfl⟩) h.1
      · exact absurd (by rw [← hk]; exact List.mem_map.mpr ⟨p, hp', rfl⟩) h.1
      · exact ih h.2 hp' hq'

theorem mem_setAdd_self (s : List String) (x : String) : x ∈ setAdd s x := by
  by_cases h : x ∈ s <;> simp [setAdd, h]

theorem setAdd_eq_self (s : List String) (x : String) (h : x ∈ s) :
    setAdd s x = s := by simp [setAdd, h]

theorem mem_setAdd_of_mem (s : List String) (x y : String) (h : y ∈ s) :
    y ∈ setAdd s x := by
  by_cases h' : x ∈ s <;> simp [setAdd, h', h]

theorem indexAdd_self_mem (idx : List (String × List String)) (key idv : String) :
    idv ∈ ((dictLookup (indexAdd idx key idv) key).getD []) := by
  unfold indexAdd
  rw [dictLookup_insert_self]
  simpa using mem_setAdd_self _ idv

theorem indexAdd_preserves_mem (idx : List (String × List String))
    (key idv k y : String) (h : y ∈ (dictLookup idx k).getD []) :
    y ∈ (dictLookup (indexAdd idx key idv) k).getD [] := by
  unfold indexAdd
  by_cases hk : k = key
  · subst hk
    rw [dictLookup_insert_self]
    cases hcase : dictLookup idx k with
    | none => simp [hcase] at h
    | some s => simpa using mem_setAdd_of_mem _ idv y (by simpa [hcase] using h)
  · rwa [dictLookup_insert_ne _ _ _ _ hk]

theorem indexAdd_eq_self (idx : List (String × List String)) (key idv : String)
    (h : idv ∈ (dictLookup idx key).getD []) : indexAdd idx key idv = idx := by
  cases hcase : dictLookup idx key with
  | none => simp [hcase] at h
  | some s =>
      unfold indexAdd
      rw [hcase]
      simp only [Option.getD_some]
      rw [setAdd_eq_self s idv (by simpa [hcase] using h)]
      exact dictInsert_eq_self _ _ _ hcase

/-! ## Store lemmas -/

/-- Id generation is determined by the type together with the lowercased
value: two candidates of one identity get one id. -/
theorem generate_artifact_id_congr (t v t' v' : String) (ht : t = t')
    (hv : pyLower v = pyLower v') :
    generate_artifact_id t v = generate_artifact_id t' v' := by
  subst ht
  unfold generate_artifact_id
  rw [hv]

/-- The merge branch of `_deduplicate_artifacts` is dead on a well-formed
store: a record similar to a pipeline candidate would share its identity,
hence (ids being derived from the identity) its id — but
`find_similar_artifacts` excludes records of equal id, so the similar list
is always empty. -/
theorem find_similar_eq_nil (db : ArtifactDatabase) (a : Artifact)
    (hwf : StoreWF db) (ha : HasGenId a) : find_similar_artifacts db a = [] := by
  unfold find_similar_artifacts
  rw [List.filter_eq_nil_iff]
  intro e he
  obtain ⟨p, hp, rfl⟩ := List.mem_map.mp he
  simp only [Bool.and_eq_true, beq_iff_eq, bne_iff_ne, ne_eq, not_and,
    not_not]
  intro hty
  have hwfp := (hwf.1 p hp).2
  exact hwfp.trans
    ((generate_artifact_id_congr _ _ _ _ hty.1 hty.2).trans ha.symm)

/-- On a well-formed store, the dedup fold leaves the store untouched and
keeps exactly the first occurrence of each id. -/
theorem dedup_foldl_wf (arts : List Artifact)
    (hgen : ∀ x ∈ arts, HasGenId x) (db : ArtifactDatabase)
    (hwf : StoreWF db) (seen : List String) (kept : List Artifact) :
    arts.foldl dedupStep (db, seen, kept) =
      (db, (dedupPure arts seen).2, kept ++ (dedupPure arts seen).1) := by
  induction arts generalizing seen kept with
  | nil => simp [dedupPure]
  | cons a rest ih =>
      have hga : HasGenId a := hgen a (by simp)
      have hrest : ∀ x ∈ rest, HasGenId x := fun x hx => hgen x (by simp [hx])
      by_cases hmem : a.id ∈ seen
      · have hstep : dedupStep (db, seen, kept) a = (db, seen, kept) := by
          simp [dedupStep, hmem]
        rw [List.foldl_cons, hstep, ih hrest seen kept]
        simp [dedupPure, hmem]
      · have hsim := find_similar_eq_nil db a hwf hga
        have hstep : dedupStep (db, seen, kept) a =
            (db, seen ++ [a.id], kept ++ [a]) := by
          simp [dedupStep, hmem, hsim, maxByConfidence]
        rw [List.foldl_cons, hstep, ih hrest (seen ++ [a.id]) (kept ++ [a])]
        simp [dedupPure, hmem]

/-- `_deduplicate_artifacts` on a well-formed store: no mutation, and the
survivors are the first occurrences by id. -/
theorem deduplicate_artifacts_of_wf (db : ArtifactDatabase)
    (arts : List Artifact) (hwf : StoreWF db)
    (hgen : ∀ x ∈ arts, HasGenId x) :
    deduplicate_artifacts db arts = (db, (dedupPure arts []).1) := by
  unfold deduplicate_artifacts
  rw [dedup_foldl_wf arts hgen db hwf [] []]
  simp

theorem mem_dedupPure (arts : List Artifact) (seen : List String)
    (x : Artifact) (h : x ∈ (dedupPure arts seen).1) : x ∈ arts := by
  induction arts generalizing seen with
  | nil => simp [dedupPure] at h
  | cons a rest ih =>
      by_cases hmem : a.id ∈ seen
      · simp only [dedupPure, if_pos hmem] at h
        exact List.mem_cons_of_mem _ (ih _ h)
      · simp only [dedupPure, if_neg hmem] at h
        rcases List.mem_cons.mp h with rfl | h'
        · simp
        · exact List.mem_cons_of_mem _ (ih _ h')

theorem dedupPure_id_not_seen (arts : List Artifact) (seen : List String)
    (x : Artifact) (h : x ∈ (dedupPure arts seen).1) : x.id ∉ seen := by
  induction arts generalizing seen with
  | nil => simp [dedupPure] at h
  | cons a rest ih =>
      by_cases hmem : a.id ∈ seen
      · simp only [dedupPure, if_pos hmem] at h
        exact ih _ h
      · simp only [dedupPure, if_neg hmem] at h
        rcases List.mem_cons.mp h with rfl | h'
        · exact hmem
        · intro hx
          exact ih _ h' (by simp [hx])

theorem dedupPure_ids_nodup (arts : List Artifact) (seen : List String) :
    ((dedupPure arts seen).1.map (fun a => a.id)).Nodup := by
  induction arts generalizing seen with
  | nil => simp [dedupPure]
  | cons a rest ih =>
      by_cases hmem : a.id ∈ seen
      · simpa only [dedupPure, if_pos hmem] using ih seen
      · simp only [dedupPure, if_neg hmem, List.map_cons, List.nodup_cons]
        refine ⟨?_, ih (seen ++ [a.id])⟩
        intro hx
        obtain ⟨y, hy, hyid⟩ := List.mem_map.mp hx
        have := dedupPure_id_not_seen rest (seen ++ [a.id]) y hy
        exact this (by simp [hyid])

/-- `add_artifact` keeps the store well-formed for pipeline artifacts. -/
theorem StoreWF_add (db : ArtifactDatabase) (a : Artifact) (hwf : StoreWF db)
    (ha : HasGenId a) : StoreWF (add_artifact db a) := by
  constructor
  · intro p hp
    rcases mem_dictInsert _ _ _ _ hp with rfl | hp'
    · exact ⟨rfl, ha⟩
    · exact hwf.1 p hp'
  · exact nodup_keys_dictInsert _ _ _ hwf.2

theorem StoreWF_foldl_add (kept : List Artifact)
    (hk : ∀ x ∈ kept, HasGenId x) (db : ArtifactDatabase) (hwf : StoreWF db) :
    StoreWF (kept.foldl add_artifact db) := by
  induction kept generalizing db with
  | nil => exact hwf
  | cons b rest ih =>
      exact ih (fun x hx => hk x (by simp [hx])) _
        (StoreWF_add db b hwf (hk b (by simp)))

theorem lookup_foldl_add_of_ne (kept : List Artifact) (db : ArtifactDatabase)
    (k : String) (h : ∀ x ∈ kept, x.id ≠ k) :
    dictLookup (kept.foldl add_artifact db).artifacts k =
      dictLookup db.artifacts k := by
  induction kept generalizing db with
  | nil => rfl
  | cons b rest ih =>
      rw [List.foldl_cons, ih _ (fun x hx => h x (by simp [hx]))]
      exact dictLookup_insert_ne _ _ _ _ fun hk => h b (by simp) hk.symm

theorem lookup_foldl_add_self (kept : List Artifact)
    (hnd : (kept.map (fun a => a.id)).Nodup) (db : ArtifactDatabase) :
    ∀ a ∈ kept, dictLookup (kept.foldl add_artifact db).artifacts a.id = some a := by
  induction kept generalizing db with
  | nil => simp
  | cons b rest ih =>
      rw [List.map_cons, List.nodup_cons] at hnd
      intro a ha
      rcases List.mem_cons.mp ha with rfl | ha'
      · rw [List.foldl_cons,
          lookup_foldl_add_of_ne rest _ a.id
            (fun x hx hxa => hnd.1 (List.mem_map.mpr ⟨x, hx, hxa⟩))]
        exact dictLookup_insert_self _ _ _
      · exact ih hnd.2 _ a ha'

theorem type_mem_foldl_mono (kept : List Artifact) (db : ArtifactDatabase)
    (k y : String) (h : y ∈ (dictLookup db.artifacts_by_type k).getD []) :
    y ∈ (dictLookup (kept.foldl add_artifact db).artifacts_by_type k).getD [] := by
  induction kept generalizing db with
  | nil => exact h
  | cons b rest ih =>
      exact ih _ (indexAdd_preserves_mem _ _ _ _ _ h)

theorem source_mem_foldl_mono (kept : List Artifact) (db : ArtifactDatabase)
    (k y : String) (h : y ∈ (dictLookup db.artifacts_by_source k).getD []) :
    y ∈ (dictLookup (kept.foldl add_artifact db).artifacts_by_source k).getD [] := by
  induction kept generalizing db with
  | nil => exact h
  | cons b rest ih =>
      exact ih _ (indexAdd_preserves_mem _ _ _ _ _ h)

theorem type_mem_foldl_add (kept : List Artifact) (db : ArtifactDatabase) :
    ∀ a ∈ kept,
      a.id ∈ (dictLookup (kept.foldl add_artifact db).artifacts_by_type a.type).getD [] := by
  induction kept generalizing db with
  | nil => simp
  | cons b rest ih =>
      intro a ha
      rcases List.mem_cons.mp ha with rfl | ha'
      · exact type_mem_foldl_mono rest _ _ _ (indexAdd_self_mem _ _ _)
      · exact ih _ a ha'

theorem source_mem_foldl_add (kept : List Artifact) (db : ArtifactDatabase) :
    ∀ a ∈ kept,
      a.id ∈ (dictLookup (kept.foldl add_artifact db).artifacts_by_source a.source_plugin).getD [] := by
  induction kept generalizing db with
  | nil => simp
  | cons b rest ih =>
      intro a ha
      rcases List.mem_cons.mp ha with rfl | ha'
      · exact source_mem_foldl_mono rest _ _ _ (indexAdd_self_mem _ _ _)
      · exact ih _ a ha'

/-- Re-adding a record the store already holds — same key, same value,
indices already containing the id — changes nothing. -/
theorem add_artifact_noop (db : ArtifactDatabase) (a : Artifact)
    (h1 : dictLookup db.artifacts a.id = some a)
    (h2 : a.id ∈ (dictLookup db.artifacts_by_type a.type).getD [])
    (h3 : a.id ∈ (dictLookup db.artifacts_by_source a.source_plugin).getD []) :
    add_artifact db a = db := by
  unfold add_artifact
  rw [dictInsert_eq_self _ _ _ h1, indexAdd_eq_self _ _ _ h2,
    indexAdd_eq_self _ _ _ h3]

theorem foldl_add_noop (kept : List Artifact) (db : ArtifactDatabase)
    (h : ∀ a ∈ kept, dictLookup db.artifacts a.id = some a ∧
      a.id ∈ (dictLookup db.artifacts_by_type a.type).getD [] ∧
      a.id ∈ (dictLookup db.artifacts_by_source a.source_plugin).getD []) :
    kept.foldl add_artifact db = db := by
  induction kept with
  | nil => rfl
  | cons b rest ih =>
      have hb := h b (by simp)
      rw [List.foldl_cons, add_artifact_noop db b hb.1 hb.2.1 hb.2.2,
        ih (fun a ha => h a (by simp [ha]))]

/-- Every artifact built by `_extract_artifacts_from_parsed_data` carries
the id `_generate_artifact_id` derives from its type and value. -/
theorem extract_hasGenId (pd : ParsedData) (plugin target category ts : String) :
    ∀ a ∈ extract_artifacts_from_parsed_data pd plugin target category ts,
      HasGenId a := by
  intro a ha
  unfold extract_artifacts_from_parsed_data at ha
  simp only [List.mem_append, List.mem_map] at ha
  rcases ha with ((((((h | h) | h) | h) | h) | h) | h) <;>
    obtain ⟨x, hx, rfl⟩ := h <;> rfl

/-- Every artifact the ingestion extraction produces carries a generated
id. -/
theorem extracted_hasGenId (results : List (String × ResultEntry))
    (target category ts : String) :
    ∀ a ∈ extractedArtifacts results target category ts, HasGenId a := by
  intro a ha
  unfold extractedArtifacts at ha
  simp only [List.mem_flatten, List.mem_map] at ha
  obtain ⟨l, ⟨p, hp, rfl⟩, hal⟩ := ha
  by_cases hs : p.2.status == "completed"
  · rw [if_pos hs] at hal
    cases hr : p.2.result with
    | some r =>
        rw [hr] at hal
        exact extract_hasGenId _ _ _ _ _ a hal
    | none =>
        rw [hr] at hal
        simp at hal
  · rw [if_neg hs] at hal
    simp at hal

/-! ## Claim theorems: the Artifact Store (C1, C5, C6) -/

/-- Claim C5: ingestion preserves store well-formedness, and a
well-formed store holds at most one record per (type, case-insensitive
value) identity — any two stored entries agreeing on type and lowercased
value are the same entry. -/
theorem C5_at_most_one_per_identity (db : ArtifactDatabase)
    (arts : List Artifact) (hwf : StoreWF db)
    (hgen : ∀ x ∈ arts, HasGenId x) :
    StoreWF (ingestArtifacts db arts) ∧
    ∀ p ∈ (ingestArtifacts db arts).artifacts,
      ∀ q ∈ (ingestArtifacts db arts).artifacts,
        p.2.type = q.2.type → pyLower p.2.value = pyLower q.2.value → p = q := by
  have hded := deduplicate_artifacts_of_wf db arts hwf hgen
  have hkept : ∀ x ∈ (dedupPure arts []).1, HasGenId x :=
    fun x hx => hgen x (mem_dedupPure _ _ _ hx)
  have hwf' : StoreWF (ingestArtifacts db arts) := by
    unfold ingestArtifacts
    rw [hded]
    exact StoreWF_foldl_add _ hkept db hwf
  refine ⟨hwf', ?_⟩
  intro p hp q hq hty hval
  have hp' := hwf'.1 p hp
  have hq' := hwf'.1 q hq
  have hkey : p.1 = q.1 := by
    rw [hp'.1, hq'.1, hp'.2, hq'.2]
    exact generate_artifact_id_congr _ _ _ _ hty hval
  exact nodup_keys_entry_eq _ hwf'.2 p q hp hq hkey

/-- Claim C5, witness: the email values a@x.com and A@X.COM collapse to
exactly one stored record, within one batch and across two batches. -/
theorem C5_witness :
    (StoreWF emptyDatabase ∧ ∀ x ∈ [emailLower, emailUpper], HasGenId x) ∧
    (StoreWF (ingestArtifacts emptyDatabase [emailLower, emailUpper]) ∧
      ∀ p ∈ (ingestArtifacts emptyDatabase [emailLower, emailUpper]).artifacts,
        ∀ q ∈ (ingestArtifacts emptyDatabase [emailLower, emailUpper]).artifacts,
          p.2.type = q.2.type → pyLower p.2.value = pyLower q.2.value → p = q) ∧
    (ingestArtifacts emptyDatabase [emailLower, emailUpper]).artifacts.length = 1 ∧
    (ingestArtifacts (ingestArtifacts emptyDatabase [emailLower])
        [emailUpper]).artifacts.length = 1 := by
  have hgen : ∀ x ∈ [emailLower, emailUpper], HasGenId x := by
    intro x hx
    simp only [List.mem_cons, List.not_mem_nil, or_false] at hx
    rcases hx with rfl | rfl <;> rfl
  exact ⟨⟨by decide, hgen⟩,
    C5_at_most_one_per_identity emptyDatabase [emailLower, emailUpper]
      (by decide) hgen,
    by decide, by decide⟩

/-- Claim C6: re-ingesting the same results (with the same extraction
inputs) is idempotent — the second ingestion returns the very same
database and deduplicated list, and any number of further re-ingestions
leaves the store at its state after the first. -/
theorem C6_ingest_idempotent (db : ArtifactDatabase)
    (results : List (String × ResultEntry)) (target category ts : String)
    (hwf : StoreWF db) :
    process_plugin_results
        (process_plugin_results db results target category ts).1
        results target category ts
      = process_plugin_results db results target category ts ∧
    ∀ n : ℕ,
      (fun d => (process_plugin_results d results target category ts).1)^[n + 1] db
        = (process_plugin_results db results target category ts).1 := by
  have hgen := extracted_hasGenId results target category ts
  set arts := extractedArtifacts results target category ts with harts
  set kept := (dedupPure arts []).1 with hkept
  have hkgen : ∀ x ∈ kept, HasGenId x :=
    fun x hx => hgen x (mem_dedupPure _ _ _ hx)
  have h1 : process_plugin_results db results target category ts =
      (kept.foldl add_artifact db, kept) := by
    simp only [process_plugin_results, ← harts]
    rw [deduplicate_artifacts_of_wf db arts hwf hgen]
  have hwf1 : StoreWF (kept.foldl add_artifact db) :=
    StoreWF_foldl_add kept hkgen db hwf
  have hnodup : (kept.map (fun a => a.id)).Nodup := dedupPure_ids_nodup arts []
  have hfacts : ∀ a ∈ kept,
      dictLookup (kept.foldl add_artifact db).artifacts a.id = some a ∧
      a.id ∈ (dictLookup (kept.foldl add_artifact db).artifacts_by_type a.type).getD [] ∧
      a.id ∈ (dictLookup (kept.foldl add_artifact db).artifacts_by_source a.source_plugin).getD [] :=
    fun a ha => ⟨lookup_foldl_add_self kept hnodup db a ha,
      type_mem_foldl_add kept db a ha, source_mem_foldl_add kept db a ha⟩
  have h2 : process_plugin_results (kept.foldl add_artifact db) results
      target category ts = (kept.foldl add_artifact db, kept) := by
    simp only [process_plugin_results, ← harts]
    rw [deduplicate_artifacts_of_wf _ arts hwf1 hgen]
    rw [foldl_add_noop kept _ hfacts]
  constructor
  · rw [h1, h2]
  · intro n
    induction n with
    | zero => simp
    | succ n ih =>
        rw [Function.iterate_succ_apply', ih]
        simp only [h1]
        exact congrArg Prod.fst h2

/-- Claim C6, witness: one completed harvest result re-ingested into the
empty store. -/
theorem C6_witness :
    StoreWF emptyDatabase ∧
    process_plugin_results
        (process_plugin_results emptyDatabase demoResults "x.com" "website" "t0").1
        demoResults "x.com" "website" "t0"
      = process_plugin_results emptyDatabase demoResults "x.com" "website" "t0" :=
  ⟨by decide,
    (C6_ingest_idempotent emptyDatabase demoResults "x.com" "website" "t0"
      (by decide)).1⟩

/-- Claim C1, counterexample: ingesting confidence 0.9 for the identity
(email, a@x.com) and then, in a later batch, confidence 0.7 with a fresh
tag leaves a single record whose confidence is 0.7 — not max(0.9, 0.7) =
0.9 — and whose tag set is the second candidate's, not the union (the tag
t1 of the first candidate is lost). -/
theorem C1_counterexample :
    ((ingestArtifacts (ingestArtifacts emptyDatabase [art09]) [art07]).artifacts.map
        fun p => (p.2.confidence, p.2.tags)) = [((0.7 : ℚ), ["email", "t2"])] ∧
    ¬ ((0.7 : ℚ) = 0.9) ∧ "t1" ∉ ["email", "t2"] :=
  ⟨rfl, by norm_num, by decide⟩

/-- Claim C1, amended: ingesting a further candidate for an identity that
already has a stored record replaces that record with the candidate
outright (confidence and tags become the candidate's — no max, no union):
the merge branch of `_deduplicate_artifacts` cannot fire for same-identity
candidates because their generated ids coincide and
`find_similar_artifacts` excludes records of equal id, so `add_artifact`
overwrites the dict entry. -/
theorem C1_second_candidate_overwrites (db : ArtifactDatabase)
    (hwf : StoreWF db) (a b : Artifact) (ha : HasGenId a) (hb : HasGenId b)
    (hty : b.type = a.type) (hval : pyLower b.value = pyLower a.value) :
    dictLookup (ingestArtifacts (ingestArtifacts db [a]) [b]).artifacts a.id
      = some b := by
  have h1 : ingestArtifacts db [a] = add_artifact db a := by
    unfold ingestArtifacts
    rw [deduplicate_artifacts_of_wf db [a] hwf (by simpa using ha)]
    simp [dedupPure]
  have hwf1 : StoreWF (add_artifact db a) := StoreWF_add db a hwf ha
  have h2 : ingestArtifacts (add_artifact db a) [b] =
      add_artifact (add_artifact db a) b := by
    unfold ingestArtifacts
    rw [deduplicate_artifacts_of_wf _ [b] hwf1 (by simpa using hb)]
    simp [dedupPure]
  rw [h1, h2]
  have hid : b.id = a.id :=
    hb.trans ((generate_artifact_id_congr _ _ _ _ hty hval).trans ha.symm)
  rw [← hid]
  exact dictLookup_insert_self _ _ _

/-- Claim C1, amended, witness: instantiated at the two concrete
candidates of the counterexample (0.9 then 0.7): the store ends holding
exactly the second candidate. -/
theorem C1_witness :
    StoreWF emptyDatabase ∧ HasGenId art09 ∧ HasGenId art07 ∧
    dictLookup (ingestArtifacts (ingestArtifacts emptyDatabase [art09])
        [art07]).artifacts art09.id = some art07 := by
  have h09 : HasGenId art09 := by decide
  have h07 : HasGenId art07 := by decide
  exact ⟨by decide, h09, h07,
    C1_second_candidate_overwrites emptyDatabase (by decide) art09 art07
      h09 h07 rfl rfl⟩

/-! ## Claim theorems: the plugin contract (C2, C7) -/

/-- Claim C2 (code bug in the source): whenever the tool is available,
the target passes validation, the command builds, the spawned process
finishes within the wall-clock timeout and the output parses, `execute`
does not return the success envelope of src/plugins/base.py:166-177 — the
undefined name `execution_time` in that dictionary raises `NameError`,
and the call returns the generic error envelope instead, with no parsed
fields and no duration. -/
theorem C2_success_path_name_error (name : String) (tools : List String)
    (env : ExecEnv) (target category : String) (timeout : Option Nat)
    (cmd out err : String) (rc : Option Int) (pd : ParsedData)
    (hav : env.available = true) (hval : env.valid = true)
    (hbuild : env.build = .ok cmd)
    (hspawn : env.spawn = .ok (.completed out err rc))
    (hparse : env.parse = .ok pd) :
    plugin_execute name tools env target category timeout =
      plainEnvelope "error" "name 'execution_time' is not defined"
        name target category ∧
    (plugin_execute name tools env target category timeout).status = "error" ∧
    (plugin_execute name tools env target category timeout).execution_time = none ∧
    (plugin_execute name tools env target category timeout).parsed_data = none := by
  have h : plugin_execute name tools env target category timeout =
      plainEnvelope "error" "name 'execution_time' is not defined"
        name target category := by
    simp [plugin_execute, hav, hval, hbuild, hspawn, hparse]
  exact ⟨h, by rw [h]; rfl, by rw [h]; rfl, by rw [h]; rfl⟩

/-- Claim C2, witness: the MockPlugin scenario of the repository's own
test (`test_plugin_execution` asserts status "success" here): the call
returns the NameError envelope instead. -/
theorem C2_witness :
    mockEnv.available = true ∧ mockEnv.valid = true ∧
    plugin_execute "mock" ["echo"] mockEnv "example.com" "test" none =
      plainEnvelope "error" "name 'execution_time' is not defined"
        "mock" "example.com" "test" :=
  ⟨rfl, rfl,
    (C2_success_path_name_error "mock" ["echo"] mockEnv "example.com" "test"
      none "echo Mock test for example.com" "Mock test for example.com\n" ""
      (some 0) {} rfl rfl rfl rfl rfl).1⟩

/-- Claim C7, counterexample: with the tool available and an invalid
target, `execute` returns status "error" — there is no "rejected" status
in the source (src/plugins/base.py:129-136 uses "error"). -/
theorem C7_counterexample :
    (plugin_execute "nmap" ["nmap"] invalidTargetEnv "http://example.com"
        "website" none).status = "error" ∧
    (plugin_execute "nmap" ["nmap"] invalidTargetEnv "http://example.com"
        "website" none).status ≠ "rejected" := by
  exact ⟨rfl, by decide⟩

/-- Claim C7, amended: an invalid target yields the status "error" with
an `Invalid target` reason — the same status string used for spawn and
parse exceptions, not a distinct "rejected" status. -/
theorem C7_invalid_target_error (name : String) (tools : List String)
    (env : ExecEnv) (target category : String) (timeout : Option Nat)
    (hav : env.available = true) (hval : env.valid = false) :
    plugin_execute name tools env target category timeout =
      plainEnvelope "error"
        ("Invalid target '" ++ target ++ "' for category '" ++ category ++ "'")
        name target category := by
  simp [plugin_execute, hav, hval]

/-- Claim C7, amended, witness. -/
theorem C7_witness :
    invalidTargetEnv.available = true ∧ invalidTargetEnv.valid = false ∧
    plugin_execute "nmap" ["nmap"] invalidTargetEnv "http://example.com"
        "website" none =
      plainEnvelope "error"
        ("Invalid target '" ++ "http://example.com" ++ "' for category '" ++
          "website" ++ "'") "nmap" "http://example.com" "website" :=
  ⟨rfl, rfl,
    C7_invalid_target_error "nmap" ["nmap"] invalidTargetEnv
      "http://example.com" "website" none rfl rfl⟩

/-! ## Claim theorems: the worker pool (C10, C3, C4) -/

/-- In the worker environment whose globals are those of the
async_worker module, `_execute_task` fails before reaching the registry:
the bare name `PLUGIN_REGISTRY` is not defined there. -/
theorem execute_task_globals_failed (env : WorkerEnv)
    (hg : env.globals = asyncWorkerModuleGlobals) (t tf : ℚ) (task : Task) :
    execute_task env t tf task =
      { task with
        status := .failed,
        error := some "name 'PLUGIN_REGISTRY' is not defined",
        start_time := some t,
        end_time := some tf } := by
  have hni : "PLUGIN_REGISTRY" ∉ env.globals := by rw [hg]; decide
  simp [execute_task, runTaskBody, hni]

/-- Claim C10: with the module globals as written, every task a worker
executes ends FAILED with the non-empty error
`name 'PLUGIN_REGISTRY' is not defined` recorded — the NameError raised
at the first use of the undefined registry name, caught by the generic
exception handler; the COMPLETED branch of `_execute_task` is
unreachable through the pool alone. -/
theorem C10_plugin_registry_undefined (reg defaults : List (String × PluginSpec))
    (dto : Nat) (t tf : ℚ) (task : Task) :
    (execute_task ⟨asyncWorkerModuleGlobals, reg, defaults, dto⟩ t tf task).status
        = .failed ∧
    (execute_task ⟨asyncWorkerModuleGlobals, reg, defaults, dto⟩ t tf task).error
        = some "name 'PLUGIN_REGISTRY' is not defined" ∧
    "name 'PLUGIN_REGISTRY' is not defined" ≠ "" ∧
    (execute_task ⟨asyncWorkerModuleGlobals, reg, defaults, dto⟩ t tf task).status
        ≠ .completed := by
  have h := execute_task_globals_failed
    ⟨asyncWorkerModuleGlobals, reg, defaults, dto⟩ rfl t tf task
  refine ⟨by rw [h], by rw [h], by decide, by rw [h]; simp⟩

/-- Batch task creation splits over list append, the clock indices of the
second part shifted by the length of the first. -/
theorem mkBatchTasks_append (ps₁ ps₂ : List String) (target category : String)
    (ms : Nat → Nat) :
    mkBatchTasks (ps₁ ++ ps₂) target category ms =
      mkBatchTasks ps₁ target category ms ++
      mkBatchTasks ps₂ target category (fun i => ms (i + ps₁.length)) := by
  induction ps₁ generalizing ms with
  | nil =>
      have h : (fun i => ms (i + ([] : List String).length)) = ms := by
        funext i
        simp
      simp [mkBatchTasks, h]
  | cons name rest ih =>
      show ({ id := taskId name target category (ms 0), plugin_name := name,
              target := target, category := category } : Task) ::
            mkBatchTasks (rest ++ ps₂) target category (fun i => ms (i + 1)) = _
      rw [ih (fun i => ms (i + 1))]
      simp only [mkBatchTasks, List.cons_append, List.length_cons]
      rfl

/-- Claim C3, counterexample: a batch of a fast plugin and a plugin whose
process exceeds the wall-clock timeout — both tasks end with scheduler
status "failed" (the registry NameError), so the timed-out plugin's task
does not reach TIMEOUT (nor COMPLETED). -/
theorem C3_counterexample :
    ((execute_plugin_batch demoWorkerEnv ["fast", "slow"] "x.com" "website"
        (fun i => i) 0 1).map fun p => p.2.status) = ["failed", "failed"] ∧
    "failed" ≠ "timeout" ∧ "failed" ≠ "completed" :=
  ⟨rfl, by decide, by decide⟩

/-- Claim C3, amended: in the pool as written every task of a batch —
including one whose plugin invocation would exceed its timeout — reaches
the terminal status FAILED with the registry NameError recorded, never
TIMEOUT; and tasks are isolated: a batch splits into the independent
executions of its parts, so no task affects another's result. -/
theorem C3_batch_failed_isolated (reg defaults : List (String × PluginSpec))
    (dto : Nat) (plugins : List String) (target category : String)
    (ms : Nat → Nat) (t tf : ℚ) :
    (∀ p ∈ execute_plugin_batch ⟨asyncWorkerModuleGlobals, reg, defaults, dto⟩
        plugins target category ms t tf,
      p.2.status = "failed" ∧ p.2.status ≠ "timeout" ∧
      p.2.error = some "name 'PLUGIN_REGISTRY' is not defined") ∧
    ∀ ps₁ ps₂ : List String,
      execute_plugin_batch ⟨asyncWorkerModuleGlobals, reg, defaults, dto⟩
          (ps₁ ++ ps₂) target category ms t tf =
        execute_plugin_batch ⟨asyncWorkerModuleGlobals, reg, defaults, dto⟩
          ps₁ target category ms t tf ++
        execute_plugin_batch ⟨asyncWorkerModuleGlobals, reg, defaults, dto⟩
          ps₂ target category (fun i => ms (i + ps₁.length)) t tf := by
  constructor
  · intro p hp
    unfold execute_plugin_batch at hp
    obtain ⟨task, htask, rfl⟩ := List.mem_map.mp hp
    have h := execute_task_globals_failed
      ⟨asyncWorkerModuleGlobals, reg, defaults, dto⟩ rfl t tf task
    refine ⟨?_, ?_, ?_⟩
    · show (resultOfTask (execute_task
        ⟨asyncWorkerModuleGlobals, reg, defaults, dto⟩ t tf task)).status = "failed"
      rw [h]
      rfl
    · show (resultOfTask (execute_task
        ⟨asyncWorkerModuleGlobals, reg, defaults, dto⟩ t tf task)).status ≠ "timeout"
      rw [h]
      simp [resultOfTask, TaskStatus.value]
    · show (resultOfTask (execute_task
        ⟨asyncWorkerModuleGlobals, reg, defaults, dto⟩ t tf task)).error =
          some "name 'PLUGIN_REGISTRY' is not defined"
      rw [h]
      rfl
  · intro ps₁ ps₂
    unfold execute_plugin_batch
    rw [mkBatchTasks_append, List.map_append]

/-- Claim C3, amended, witness: instantiated at the two-plugin batch of
the counterexample. -/
theorem C3_witness :
    (∀ p ∈ execute_plugin_batch demoWorkerEnv ["fast", "slow"] "x.com"
        "website" (fun i => i) 0 1,
      p.2.status = "failed" ∧ p.2.status ≠ "timeout" ∧
      p.2.error = some "name 'PLUGIN_REGISTRY' is not defined") ∧
    execute_plugin_batch demoWorkerEnv (["fast"] ++ ["slow"]) "x.com"
        "website" (fun i => i) 0 1 =
      execute_plugin_batch demoWorkerEnv ["fast"] "x.com" "website"
        (fun i => i) 0 1 ++
      execute_plugin_batch demoWorkerEnv ["slow"] "x.com" "website"
        (fun i => (fun j => j) (i + ["fast"].length)) 0 1 :=
  ⟨(C3_batch_failed_isolated demoWorkerEnv.registry demoWorkerEnv.defaults 80
      ["fast", "slow"] "x.com" "website" (fun i => i) 0 1).1,
   (C3_batch_failed_isolated demoWorkerEnv.registry demoWorkerEnv.defaults 80
      ["fast", "slow"] "x.com" "website" (fun i => i) 0 1).2 ["fast"] ["slow"]⟩

/-- Claim C4, counterexample: `stop()` on a pool with a RUNNING task
clears the workers and the running flag but leaves the task RUNNING —
its status does not become CANCELLED, and a task with status RUNNING
remains. -/
theorem C4_counterexample :
    (pool_stop runningPool).workers = [] ∧
    (pool_stop runningPool).running = false ∧
    ((pool_stop runningPool).tasks.map fun p => p.2.status) =
      [TaskStatus.running] ∧
    TaskStatus.running ≠ TaskStatus.cancelled :=
  ⟨rfl, rfl, rfl, by decide⟩

/-- Claim C4, amended: `stop()` removes every worker loop and clears the
running flag, but leaves every task's record — hence its status —
unchanged: a task RUNNING when `stop()` is called remains RUNNING;
nothing assigns CANCELLED. -/
theorem C4_stop_tasks_unchanged (s : PoolState) :
    (pool_stop s).tasks = s.tasks ∧
    (s.running = true →
      (pool_stop s).workers = [] ∧ (pool_stop s).running = false) := by
  unfold pool_stop
  by_cases h : s.running <;> simp [h]

/-- Claim C4, amended, witness. -/
theorem C4_witness :
    (pool_stop runningPool).tasks = runningPool.tasks ∧
    ((pool_stop runningPool).workers = [] ∧
      (pool_stop runningPool).running = false) :=
  ⟨(C4_stop_tasks_unchanged runningPool).1,
   (C4_stop_tasks_unchanged runningPool).2 rfl⟩

/-! ## Claim theorems: chaining (C8) -/

/-- The candidate loop of `_perform_artifact_chaining`: when every
candidate is loaded and available, each contributes one record per
truncated target. -/
theorem chain_fold_length (plugins : List String) (available : String → Bool)
    (agg ty : String) (values : List String)
    (runChained : String → String → ResultEntry) (names : List String)
    (helig : ∀ c ∈ names, plugins.contains c = true ∧ available c = true) :
    ∀ acc : List ChainRecord,
      (names.foldl (fun acc name =>
        if plugins.contains name && available name then
          acc ++ (chainTargets agg values).map (fun tgt =>
            { plugin := name, target := tgt, source_artifact_type := ty,
              status := (runChained name tgt).status })
        else acc) acc).length
      = acc.length + names.length * (chainTargets agg values).length := by
  induction names with
  | nil =>
      intro acc
      simp
  | cons n rest ih =>
      intro acc
      have hn := helig n (by simp)
      rw [List.foldl_cons, if_pos (by rw [hn.1, hn.2]; rfl)]
      rw [ih (fun c hc => helig c (by simp [hc])) _]
      simp only [List.length_append, List.length_map, List.length_cons]
      ring

/-- Per-type record count of the Chaining Engine under full candidate
eligibility. -/
theorem chainForType_length (manifests : List PluginManifest)
    (plugins : List String) (available : String → Bool) (agg ty : String)
    (values : List String) (runChained : String → String → ResultEntry)
    (hvals : values ≠ [])
    (helig : ∀ c ∈ aggTruncate agg (get_chaining_candidates manifests [ty]),
        plugins.contains c = true ∧ available c = true) :
    (chainForType manifests plugins available agg ty values runChained).length =
      (aggTruncate agg (get_chaining_candidates manifests [ty])).length *
      (chainTargets agg values).length := by
  have hne : values.isEmpty = false := by
    cases values with
    | nil => exact absurd rfl hvals
    | cons v vs => rfl
  unfold chainForType
  rw [hne]
  simp only [Bool.false_eq_true, if_false]
  rw [chain_fold_length plugins available agg ty values runChained _ helig []]
  simp

/-- Claim C8: per chainable artifact type with at least one value and all
truncated candidates eligible (loaded and available), the Chaining Engine
submits exactly (truncated candidates) × (truncated values) secondary
tasks: `low` keeps 1 candidate and the first 5 values, `medium` at most 2
candidates and the first 10 (hence at most 2 × 10 tasks), `high` all
candidates and the first 10. -/
theorem C8_aggressiveness_caps (manifests : List PluginManifest)
    (plugins : List String) (available : String → Bool) (scan_depth : Nat)
    (agg ty : String) (values : List String)
    (runChained : String → String → ResultEntry)
    (hdepth : 1 < scan_depth) (hvals : values ≠ [])
    (helig : ∀ c ∈ aggTruncate agg (get_chaining_candidates manifests [ty]),
        plugins.contains c = true ∧ available c = true) :
    (perform_artifact_chaining manifests plugins available scan_depth agg
        [(ty, values)] runChained).length =
      (aggTruncate agg (get_chaining_candidates manifests [ty])).length *
      (chainTargets agg values).length ∧
    (agg = "low" →
      (perform_artifact_chaining manifests plugins available scan_depth agg
          [(ty, values)] runChained).length =
        min 1 (get_chaining_candidates manifests [ty]).length *
        min 5 values.length) ∧
    (agg = "medium" →
      (perform_artifact_chaining manifests plugins available scan_depth agg
          [(ty, values)] runChained).length =
        min 2 (get_chaining_candidates manifests [ty]).length *
        min 10 values.length ∧
      (perform_artifact_chaining manifests plugins available scan_depth agg
          [(ty, values)] runChained).length ≤ 2 * 10) ∧
    (agg = "high" →
      (perform_artifact_chaining manifests plugins available scan_depth agg
          [(ty, values)] runChained).length =
        (get_chaining_candidates manifests [ty]).length *
        min 10 values.length) := by
  have hguard : ¬ scan_depth ≤ 1 := by omega
  have hrecs : perform_artifact_chaining manifests plugins available
      scan_depth agg [(ty, values)] runChained =
      chainForType manifests plugins available agg ty values runChained := by
    unfold perform_artifact_chaining
    rw [if_neg hguard]
    simp
  have hlen := chainForType_length manifests plugins available agg ty values
    runChained hvals helig
  refine ⟨by rw [hrecs, hlen], ?_, ?_, ?_⟩
  · rintro rfl
    rw [hrecs, hlen]
    simp [aggTruncate, chainTargets, List.length_take]
  · rintro rfl
    constructor
    · rw [hrecs, hlen]
      simp [aggTruncate, chainTargets, List.length_take]
    · rw [hrecs, hlen]
      have h1 : (aggTruncate "medium" (get_chaining_candidates manifests [ty])).length ≤ 2 := by
        simp [aggTruncate, List.length_take]
      have h2 : (chainTargets "medium" values).length ≤ 10 := by
        simp [chainTargets, List.length_take]
      exact Nat.mul_le_mul h1 h2
  · rintro rfl
    rw [hrecs, hlen]
    simp [aggTruncate, chainTargets, List.length_take]

/-- Claim C8, witness: aggressiveness `low`, 3 eligible candidates able to
consume domains, 8 domain values — exactly 1 × 5 = 5 secondary tasks. -/
theorem C8_witness :
    (1 : Nat) < 2 ∧ domainValues ≠ [] ∧
    (∀ c ∈ aggTruncate "low" (get_chaining_candidates chainManifests ["domains"]),
      (["nmap", "theharvester", "whois"] : List String).contains c = true ∧
      (fun _ : String => true) c = true) ∧
    (perform_artifact_chaining chainManifests ["nmap", "theharvester", "whois"]
        (fun _ => true) 2 "low" [("domains", domainValues)] chainRun).length
      = 1 * 5 := by
  refine ⟨by decide, by decide, by decide, ?_⟩
  have h := (C8_aggressiveness_caps chainManifests
    ["nmap", "theharvester", "whois"] (fun _ => true) 2 "low" "domains"
    domainValues chainRun (by decide) (by decide) (by decide)).2.1 rfl
  rw [h]
  decide

/-! ## Claim theorems: the status aggregator (C9) -/

/-- Claim C9, counterexample: on a result map with one completed and one
timed-out task, the summary's failed count is 1 although no task has
status "failed" — the timed-out task is folded into the failed count
(`failed = total - successful`), and the summary carries no separate
timed-out count. -/
theorem C9_counterexample :
    (generate_summary demoSummaryResults []).map Summary.failed_tasks = some 1 ∧
    (demoSummaryResults.filter fun p => p.2.status == "failed").length = 0 ∧
    (1 : Nat) ≠ 0 :=
  ⟨rfl, by decide, by decide⟩

/-- The histogram fold counts occurrences per type. -/
theorem histFold_lookup (l : List (List (String × String)))
    (acc : List (String × Nat)) (ty : String) :
    dictLookup (histFold acc l) ty =
      match dictLookup acc ty with
      | some n => some (n + (l.filter fun d => artifactTypeOf d == ty).length)
      | none =>
          if (l.filter fun d => artifactTypeOf d == ty).length = 0 then none
          else some (l.filter fun d => artifactTypeOf d == ty).length := by
  induction l generalizing acc with
  | nil => cases h : dictLookup acc ty <;> simp [histFold, h]
  | cons d rest ih =>
      have hstep : histFold acc (d :: rest) =
          histFold (dictInsert acc (artifactTypeOf d)
            ((dictLookup acc (artifactTypeOf d)).getD 0 + 1)) rest := rfl
      rw [hstep, ih]
      by_cases hty : artifactTypeOf d = ty
      · subst hty
        rw [dictLookup_insert_self]
        cases h : dictLookup acc (artifactTypeOf d) <;>
          simp [h, List.filter_cons, Nat.add_comm, Nat.add_assoc,
            Nat.add_left_comm]
      · rw [dictLookup_insert_ne _ _ _ _ fun hc => hty hc.symm]
        have hhead : (artifactTypeOf d == ty) = false := by
          simpa using hty
        cases h : dictLookup acc ty <;> simp [h, List.filter_cons, hhead]

/-- Claim C9, amended: the Status Aggregator is a pure function of the
task-result map and the artifact list; whenever every entry's duration is
numeric it returns the total task count, the succeeded count (status
"completed"), a failed count that is total minus succeeded (timed-out
tasks included — there is no separate timed-out count), the success rate,
the rounded total execution time (no average), the artifact count and the
per-type histogram. -/
theorem C9_summary_characterization (results : List (String × ResultEntry))
    (artifacts : List (List (String × String)))
    (h : ∀ p ∈ results, p.2.duration.isSome = true) :
    ∃ s, generate_summary results artifacts = some s ∧
      s.total_tasks = results.length ∧
      s.successful_tasks =
        (results.filter fun p => p.2.status == "completed").length ∧
      s.failed_tasks = s.total_tasks - s.successful_tasks ∧
      s.success_rate = (if 0 < results.length then
        ((results.filter fun p => p.2.status == "completed").length : ℚ) /
          (results.length : ℚ) * 100 else 0) ∧
      s.total_execution_time =
        pyRound2 ((results.map fun p => p.2.duration.getD 0).sum) ∧
      s.total_artifacts = artifacts.length ∧
      ∀ ty, dictLookup s.artifact_types ty =
        (if (artifacts.filter fun d => artifactTypeOf d == ty).length = 0
         then none
         else some (artifacts.filter fun d => artifactTypeOf d == ty).length) := by
  have hall : results.all (fun p => p.2.duration.isSome) = true :=
    List.all_eq_true.mpr h
  unfold generate_summary
  rw [hall]
  simp only [if_true]
  refine ⟨_, rfl, rfl, rfl, rfl, rfl, rfl, rfl, ?_⟩
  intro ty
  have hh := histFold_lookup artifacts [] ty
  simpa [dictLookup] using hh

/-- Claim C9, amended, witness: instantiated at the counterexample's
result map and one email-typed artifact dict. -/
theorem C9_witness :
    (∀ p ∈ demoSummaryResults, p.2.duration.isSome = true) ∧
    ∃ s, generate_summary demoSummaryResults [[("type", "email")]] = some s ∧
      s.total_tasks = demoSummaryResults.length ∧
      s.successful_tasks =
        (demoSummaryResults.filter fun p => p.2.status == "completed").length ∧
      s.failed_tasks = s.total_tasks - s.successful_tasks ∧
      s.success_rate = (if 0 < demoSummaryResults.length then
        ((demoSummaryResults.filter fun p => p.2.status == "completed").length : ℚ) /
          (demoSummaryResults.length : ℚ) * 100 else 0) ∧
      s.total_execution_time =
        pyRound2 ((demoSummaryResults.map fun p => p.2.duration.getD 0).sum) ∧
      s.total_artifacts = ([[("type", "email")]] : List (List (String × String))).length ∧
      ∀ ty, dictLookup s.artifact_types ty =
        (if (([[("type", "email")]] : List (List (String × String))).filter
              fun d => artifactTypeOf d == ty).length = 0
         then none
         else some (([[("type", "email")]] : List (List (String × String))).filter
              fun d => artifactTypeOf d == ty).length) :=
  ⟨by decide,
   C9_summary_characterization demoSummaryResults [[("type", "email")]]
     (by decide)⟩

end DJ
